import Mathlib

set_option maxRecDepth 16384
set_option maxHeartbeats 1000000

/-!
Shallow embedding of the AgroVue local-fallback advisor
(`src/src/App.js`, lines 35-290): the crop metadata tables, the text
normalizer, the keyword-scoring intent classifier, the crop-context
resolver, the response templater `getLocalFallback`, and the advisor
facade `getAIReply`.

Strings are modelled by Lean `String` (a wrapper around `List Char`);
the JavaScript operations `toLowerCase`, `replace`, `includes`, `trim`
are modelled character-by-character on `String.data`.  The JS
`toLowerCase`/`trim` are modelled on the ASCII range (`Char.toLower`,
`Char.isWhitespace`), which is exact on every keyword, crop name and
template literal the program uses.
-/

namespace AgroVue

/-- The punctuation characters stripped by the normalizer:
`msg.toLowerCase().replace(/[?।!,]/g, " ")` (App.js line 170). -/
def isPunct (c : Char) : Bool := c = '?' || c = '।' || c = '!' || c = ','

/-- Whitespace test used to model the regex `\s` and `String.trim`. -/
def isWs (c : Char) : Bool := c.isWhitespace

/-- Models `.replace(/\s+/g, " ")` (App.js line 171): every maximal run
of whitespace characters is replaced by a single space. -/
def collapse : List Char → List Char
  | [] => []
  | [c] => if isWs c then [' '] else [c]
  | c :: d :: rest =>
    if isWs c && isWs d then collapse (d :: rest)
    else (if isWs c then ' ' else c) :: collapse (d :: rest)

/-- Drop trailing whitespace (the right half of `.trim()`). -/
def trimR : List Char → List Char
  | [] => []
  | c :: rest =>
    match trimR rest with
    | [] => if isWs c then [] else [c]
    | r => c :: r

/-- Drop leading whitespace (the left half of `.trim()`). -/
def trimL (l : List Char) : List Char := l.dropWhile isWs

/-- The text normalizer (App.js lines 169-172):
lower-case, replace `? । ! ,` by spaces, collapse whitespace runs to a
single space, trim both ends. -/
def normalize (s : String) : String :=
  String.mk (trimL (trimR (collapse
    ((s.data.map Char.toLower).map (fun c => if isPunct c then ' ' else c)))))

/-- Models JavaScript `String.prototype.toLowerCase` (ASCII range). -/
def lowerStr (s : String) : String := String.mk (s.data.map Char.toLower)

/-- `listPre t q` holds when `t` is a prefix of `q` (models the inner
step of JavaScript `String.prototype.includes`). -/
def listPre : List Char → List Char → Bool
  | [], _ => true
  | _ :: _, [] => false
  | a :: as, b :: bs => a == b && listPre as bs

/-- `listSub t q` holds when `t` occurs contiguously inside `q`. -/
def listSub (t : List Char) : List Char → Bool
  | [] => listPre t []
  | q@(_ :: rest) => listPre t q || listSub t rest

/-- Models JavaScript `q.includes(t)` (App.js line 176). -/
def includes (q t : String) : Bool := listSub t.data q.data

/-- The keyword counter
`has = (...terms) => terms.reduce((score, t) => score + (q.includes(t) ? 1 : 0), 0)`
(App.js line 176). -/
def has (q : String) (terms : List String) : Nat :=
  terms.foldl (fun score t => score + (if includes q t then 1 else 0)) 0

/-- The ten known crop names (App.js line 35). -/
def CROPS : List String :=
  ["Wheat", "Rice", "Maize", "Tomato", "Onion", "Potato", "Soybean",
   "Cotton", "Sugarcane", "Chilli"]

/-- Crop metadata record (App.js lines 38-49).  The display `icon`
field is UI-only, never read by the advisor fallback, and is omitted.
The price-volatility coefficient `vol` is an exact decimal with two
fractional digits in the source (`0.06`, `0.4`, ...); it is stored here
in hundredths (`0.06` is `6`) so that records stay decidably comparable. -/
structure CropMeta where
  season : String
  harvest : String
  base : Nat
  vol : Nat
deriving DecidableEq

/-- The static crop metadata table `CROP_META` (App.js lines 38-49). -/
def CROP_META : List (String × CropMeta) :=
  [("Wheat", { season := "Rabi", harvest := "Mar-Apr", base := 2200, vol := 6 }),
   ("Rice", { season := "Kharif", harvest := "Oct-Nov", base := 3100, vol := 5 }),
   ("Maize", { season := "Kharif", harvest := "Sep-Oct", base := 1800, vol := 8 }),
   ("Tomato", { season := "Year-round", harvest := "Oct & Mar", base := 1500, vol := 35 }),
   ("Onion", { season := "Rabi/Kharif", harvest := "Nov & Mar", base := 1200, vol := 40 }),
   ("Potato", { season := "Rabi", harvest := "Jan-Feb", base := 900, vol := 25 }),
   ("Soybean", { season := "Kharif", harvest := "Oct-Nov", base := 4500, vol := 10 }),
   ("Cotton", { season := "Kharif", harvest := "Nov-Jan", base := 6200, vol := 7 }),
   ("Sugarcane", { season := "Year-round", harvest := "Oct-Mar", base := 380, vol := 3 }),
   ("Chilli", { season := "Rabi", harvest := "Feb-Mar", base := 8500, vol := 30 })]

/-- Key lookup in the `CROP_META` object: `CROP_META[crop]` is
`undefined` (here `none`) for unknown keys. -/
def cropMeta? (c : String) : Option CropMeta :=
  (CROP_META.find? (fun e => e.1 == c)).map (fun e => e.2)

/-- The static tip table `CROP_TIPS` (App.js lines 50-61). -/
def CROP_TIPS : List (String × String) :=
  [("Wheat", "Prices typically rise post-harvest export season (Apr–Jun). Best to store until May."),
   ("Rice", "Sell 30–40% immediately post-harvest, store rest for Jan–Feb when prices rise 15–20%."),
   ("Tomato", "High volatility crop. Monitor daily prices. Consider contract farming for stability."),
   ("Onion", "Cold storage can yield 25–35% premium. April–July is the best selling window."),
   ("Potato", "Store in cold storage. Market opens up in summer (May–Jul) with 20% higher prices."),
   ("Maize", "Poultry feed demand drives prices. Nov–Jan tends to be the best selling period."),
   ("Soybean", "Global soy prices heavily influence. Watch CBOT futures for export demand signals."),
   ("Cotton", "Textile industry demand peaks in Feb–Mar. Hold for quality premium pricing."),
   ("Sugarcane", "Regulated FRP prices ensure minimum income. Sell early to avoid payment delays."),
   ("Chilli", "Export demand from Sri Lanka & Bangladesh boosts prices in May–Jun. Dry for better margins.")]

/-- Key lookup in the `CROP_TIPS` object. -/
def cropTip? (c : String) : Option String :=
  (CROP_TIPS.find? (fun e => e.1 == c)).map (fun e => e.2)

/-- The generic default metadata record
`{ base: 2000, harvest: "varies", season: "varies", vol: 0.1 }`
(App.js line 173). -/
def defaultMeta : CropMeta :=
  { season := "varies", harvest := "varies", base := 2000, vol := 10 }

/-- Keyword list of the `price` intent (App.js lines 180-182). -/
def priceKw : List String :=
  ["price", "rate", "bhav", "daam", "aaj", "today", "current", "kitna", "how much",
   "mandi", "market", "bhaav", "today price", "rate kya", "kya bhav", "what is price",
   "दाम", "भाव", "आज", "कितना", "क्या भाव", "मंडी"]

/-- Keyword list of the `sell` intent (App.js lines 183-184). -/
def sellKw : List String :=
  ["sell", "selling", "bechna", "kab beche", "when sell", "best time", "kab", "timing",
   "hold", "store or sell", "should i sell", "kb bechu", "कब बेचूं", "बेचना", "कब"]

/-- Keyword list of the `msp` intent (App.js lines 185-187). -/
def mspKw : List String :=
  ["msp", "minimum support", "government price", "sarkar", "scheme", "support price",
   "sarkari", "pm kisan", "pmkisan", "subsidy", "compensation", "सरकार", "एमएसपी",
   "समर्थन मूल्य", "सरकारी"]

/-- Keyword list of the `storage` intent (App.js lines 188-189). -/
def storageKw : List String :=
  ["storage", "store", "cold storage", "godown", "rakhna", "warehouse", "bhndaran",
   "kitne din", "how long", "preserve", "रखना", "भंडारण", "गोदाम", "ठंडा"]

/-- Keyword list of the `weather` intent (App.js lines 190-191). -/
def weatherKw : List String :=
  ["weather", "rain", "monsoon", "mausam", "barish", "drought", "flood", "climate",
   "temperature", "baarish", "season", "kharif", "rabi", "मौसम", "बारिश", "सूखा", "बाढ़"]

/-- Keyword list of the `profit` intent (App.js lines 192-193). -/
def profitKw : List String :=
  ["profit", "income", "earning", "kamai", "fayda", "labh", "margin", "roi", "return",
   "kitna milega", "how much earn", "benefit", "कमाई", "फायदा", "लाभ", "मुनाफा"]

/-- Keyword list of the `disease` intent (App.js lines 194-195). -/
def diseaseKw : List String :=
  ["disease", "pest", "insect", "fungus", "virus", "spray", "medicine", "dawai", "kit",
   "rog", "keeda", "blight", "wilt", "rot", "yellow", "leaf", "कीट", "रोग", "दवाई", "कीड़ा"]

/-- Keyword list of the `fertilizer` intent (App.js lines 196-197). -/
def fertilizerKw : List String :=
  ["fertilizer", "khad", "urea", "dap", "npk", "manure", "compost", "potash", "zinc",
   "nutrient", "खाद", "यूरिया", "डीएपी"]

/-- Keyword list of the `water` intent (App.js lines 198-199). -/
def waterKw : List String :=
  ["water", "irrigation", "drip", "paani", "sinchai", "pump", "borewell", "canal",
   "पानी", "सिंचाई", "नहर"]

/-- Keyword list of the `loan` intent (App.js lines 200-201). -/
def loanKw : List String :=
  ["loan", "credit", "bank", "kcc", "kisan card", "finance", "interest", "byaj", "nabard",
   "insurance", "pmfby", "बीमा", "ऋण", "लोन", "ब्याज", "किसान कार्ड"]

/-- Keyword list of the `export` intent (App.js line 202). -/
def exportKw : List String :=
  ["export", "foreign", "international", "demand", "global", "abroad", "विदेश", "निर्यात"]

/-- Keyword list of the `sowing` intent (App.js lines 203-204). -/
def sowingKw : List String :=
  ["sow", "sowing", "plant", "seed", "baai", "ugana", "nursery", "transplant", "बुवाई",
   "बीज", "उगाना", "नर्सरी"]

/-- Keyword list of the `harvest` intent (App.js line 205). -/
def harvestKw : List String :=
  ["harvest", "cutting", "katai", "ready", "ripeness", "kab katna", "कटाई", "तैयार"]

/-- Keyword list of the `variety` intent (App.js lines 206-207). -/
def varietyKw : List String :=
  ["variety", "type", "which type", "konsa", "breed", "hybrid", "variety konsi",
   "किस्म", "कौन सी", "हाइब्रिड"]

/-- Keyword list of the `transport` intent (App.js line 208). -/
def transportKw : List String :=
  ["transport", "truck", "vehicle", "freight", "delivery", "gaadi", "ढुलाई", "गाड़ी"]

/-- The `scores` object (App.js lines 179-209) as an association list in
JavaScript insertion order (the order `Object.entries` enumerates). -/
def intentTable : List (String × List String) :=
  [("price", priceKw), ("sell", sellKw), ("msp", mspKw), ("storage", storageKw),
   ("weather", weatherKw), ("profit", profitKw), ("disease", diseaseKw),
   ("fertilizer", fertilizerKw), ("water", waterKw), ("loan", loanKw),
   ("export", exportKw), ("sowing", sowingKw), ("harvest", harvestKw),
   ("variety", varietyKw), ("transport", transportKw)]

/-- `Object.entries(scores)` for a given normalized question. -/
def scoreTable (q : String) : List (String × Nat) :=
  intentTable.map (fun e => (e.1, has q e.2))

/-- Head of the stable descending sort
`Object.entries(scores).sort((a,b) => b[1]-a[1])[0]` (App.js line 212):
a left fold that keeps the current entry unless a strictly larger score
appears, which is exactly the first entry attaining the maximum
(JavaScript `Array.prototype.sort` is stable). -/
def topEntry (x : String × Nat) (l : List (String × Nat)) : String × Nat :=
  l.foldl (fun best e => if best.2 < e.2 then e else best) x

/-- The maximum score of a score table. -/
def maxOfScores : List (String × Nat) → Nat
  | [] => 0
  | e :: t => max e.2 (maxOfScores t)

/-- The intent classifier (App.js lines 211-213):
`topIntent[1] > 0 ? topIntent[0] : "general"`.  Takes the already
normalized question.  The score table is statically non-empty; the
`[]` case is unreachable. -/
def classify (q : String) : String :=
  match scoreTable q with
  | [] => "general"
  | x :: rest =>
    let top := topEntry x rest
    if 0 < top.2 then top.1 else "general"

/-- The crop-context resolver (App.js line 216):
`CROPS.find(c => q.includes(c.toLowerCase())) || crop`. -/
def mentionedCropOf (q crop : String) : String :=
  (CROPS.find? (fun c => includes q (lowerStr c))).getD crop

/-- The metadata record used by the templater (App.js lines 173, 217):
`CROP_META[mentionedCrop] || (CROP_META[crop] || defaultMeta)`. -/
def resolvedMeta (q crop : String) : CropMeta :=
  (cropMeta? (mentionedCropOf q crop)).getD ((cropMeta? crop).getD defaultMeta)

/-- The tip string used by the templater (App.js lines 174, 218):
`CROP_TIPS[mentionedCrop] || (CROP_TIPS[crop] || "")` (every stored tip
is a non-empty string, so JS falsiness agrees with `Option.getD`). -/
def resolvedTip (q crop : String) : String :=
  (cropTip? (mentionedCropOf q crop)).getD ((cropTip? crop).getD "")

/-- Models `Math.round(base * 1.2)` in the price template (App.js
line 222).  Exact rational rounding; it coincides with the JS double
computation on every base price of the metadata table and on the
default record (all multiples of ten). -/
def round12 (base : Nat) : Nat := (12 * base + 5) / 10

/-- The storage template's premium sub-branch (App.js line 231):
`mentionedCrop === "Potato" || mentionedCrop === "Onion" ? "25–40% price premium" : "short-term holding"`. -/
def storagePremium (mc : String) : String :=
  if mc = "Potato" || mc = "Onion" then "25–40% price premium" else "short-term holding"

/-- The weather template's cold-wave sub-branch (App.js line 234). -/
def coldWaveEffect (mc : String) : String :=
  if mc = "Tomato" || mc = "Potato" then "quality & supply significantly" else "field operations"

/-- The water template's irrigation-requirement sub-branch (App.js
lines 246-251): a conditional chain over four named crops with a
generic fallback message. -/
def waterRequirement (mc : String) : String :=
  if mc = "Rice" then "High — 1200–2000 mm (flood or SRI method)"
  else if mc = "Sugarcane" then "High — irrigate every 10–15 days"
  else if mc = "Wheat" then "Medium — 4–6 irrigations (CRI, tillering, jointing, grain fill)"
  else if mc = "Tomato" then "Frequent — drip irrigation saves 40% water"
  else "Moderate — check soil moisture before irrigating"

/-- The export template's market sub-branch (App.js lines 257-261). -/
def exportMarkets (mc : String) : String :=
  if mc = "Chilli" then "• Sri Lanka, Bangladesh, UAE, Malaysia — May–Jun is peak export season"
  else if mc = "Onion" then "• Malaysia, Sri Lanka, UAE — Apr–Jul when domestic prices are high"
  else if mc = "Rice" then "• Middle East, Africa, SE Asia — India is world\x27s largest rice exporter"
  else if mc = "Cotton" then "• Bangladesh, China for textile — premium for long staple quality"
  else "• Check APEDA portal (apeda.gov.in) for your crop\x27s export potential"

/-- The harvest template's maturity-signs sub-branch (App.js
lines 267-271). -/
def maturitySigns (mc : String) : String :=
  if mc = "Wheat" then "• Golden yellow color, grains hard & dry, moisture 14–16%"
  else if mc = "Rice" then "• 80% grains golden yellow, moisture 20–25% at harvest"
  else if mc = "Tomato" then "• Red color, firm texture — harvest every 3–4 days"
  else if mc = "Onion" then "• Neck fall (70% plants), tops dry and fall naturally"
  else "• Check crop-specific maturity indicators with your KVK"

/-- The variety template's recommended-varieties sub-branch (App.js
lines 275-281). -/
def varietyList (mc : String) : String :=
  if mc = "Wheat" then "• HD-2967, HD-3086, GW-322, DBW-187 (disease resistant)"
  else if mc = "Rice" then "• Swarna, MTU-1010, Pusa Basmati 1121, BPT-5204"
  else if mc = "Tomato" then "• Arka Vikas, Pusa Ruby, Solan Vajra, hybrid varieties"
  else if mc = "Onion" then "• Bhima Super, Agrifound Light Red, Phule Safed"
  else if mc = "Potato" then "• Kufri Jyoti, Kufri Pukhraj, Kufri Chipsona"
  else if mc = "Maize" then "• DHM-117, Vivek QPM-9, DKC-9144 (hybrid)"
  else "• Contact your state agriculture department or KVK for region-specific variety recommendations"

/-- The transport template's perishables sub-branch (App.js line 284). -/
def perishableName (mc : String) : String :=
  if mc = "Tomato" || mc = "Onion" then "Tomato/Onion" else "this crop"

/-- The response templater: the `switch (intent)` of `getLocalFallback`
(App.js lines 220-289).  `mc` is the resolved (mentioned) crop, `cm`
and `ct` the resolved metadata and tip, `msg` the verbatim original
question (used only by the default branch).  The string
concatenations are grouped (associativity of `++`) so that each
interpolated field is a direct operand, but the character sequences
are exactly the source template literals. -/
def renderFallback (intent mc : String) (cm : CropMeta) (ct : String) (msg : String) : String :=
  match intent with
  | "price" =>
    "📊 **" ++ mc ++ (" Market Price**\n\nCurrent approximate price: ₹" ++ toString cm.base ++ "–₹" ++ toString (round12 cm.base) ++ "/quintal\n(Varies by quality, location & season)\n\nBest harvest window: ") ++ cm.harvest ++ (" | Season: " ++ cm.season ++ "\n\n🔍 Check live prices at:\n• eNAM portal → enam.gov.in\n• AgMarkNet → agmarknet.gov.in\n• Your local APMC mandi board\n\n" ++ ct)
  | "sell" =>
    "📅 **Best Time to Sell " ++ mc ++ ("**\n\n" ++ ct ++ "\n\nHarvest window: ") ++ cm.harvest ++ (" | Season: " ++ cm.season ++ "\n\n💡 Strategy: Avoid selling at peak harvest when supply floods the market. Wait 4–6 weeks after harvest — prices usually rise 10–20%.\n\nCheck daily mandi rates on eNAM (enam.gov.in) before deciding.")
  | "msp" =>
    "🏛️ **MSP for " ++ mc ++ ("**\n\nThe government sets MSP (Minimum Support Price) each season to protect farmers. To claim MSP:\n\n1️⃣ Register on PM-KISAN portal → pmkisan.gov.in\n2️⃣ Documents needed: Khatauni (land record), Aadhaar, Bank passbook\n3️⃣ Sell through your local APMC mandi or registered procurement center\n\n📞 Kisan Helpline: 1800-180-1551 (Toll Free, 24x7)\n🌐 agri.gov.in for current MSP notifications")
  | "storage" =>
    "❄️ **Storage Tips for " ++ mc ++ ("**\n\n" ++ ct ++ "\n\nStorage options:\n• Cold storage: Best for " ++ storagePremium mc ++ "\n• Join a local FPO for shared cold storage at lower cost/quintal\n• Proper drying & grading before storage reduces losses by 15–20%\n\nAsk your district agriculture officer for nearest government cold storage facility.")
  | "weather" =>
    "🌦️ **Weather Impact on " ++ mc ++ ("**\n\nMonsoon effect: Deficit rainfall → supply shortage → price rise 15–25%\nExcess rain → crop damage → short spike then crash\nCold wave → affects " ++ coldWaveEffect mc ++ "\n\n🛡️ Protect your income:\n• PMFBY crop insurance — register before sowing season\n• IMD weather forecast → imd.gov.in for your district")
  | "profit" =>
    "💰 **Profit Maximization — " ++ mc ++ ("**\n\n" ++ ct ++ "\n\nTo increase your income from " ++ mc ++ ":\n• Time your sale correctly (") ++ cm.harvest ++ (")\n• Reduce post-harvest losses with proper storage & grading\n• Sell directly to buyers via eNAM — skip middlemen\n• Explore value addition: processing, packaging, or contract farming\n• Join an FPO to negotiate better prices in bulk")
  | "disease" =>
    "🌿 **Disease & Pest Management — " ++ mc ++ ("**\n\nCommon issues in " ++ mc ++ ": fungal blight, aphids, leaf curl, root rot (varies by season).\n\nImmediate steps:\n1. Identify the pest/disease accurately before spraying\n2. Contact your Krishi Vigyan Kendra (KVK) — free expert advice\n3. Use recommended pesticides at correct dosage\n\n📞 Kisan Call Centre: 1800-180-1551\n🌐 State agriculture department app for photo-based diagnosis\n\n⚠️ Early treatment prevents 20–30% yield loss.")
  | "fertilizer" =>
    "🌱 **Fertilizer Guide — " ++ mc ++ ("**\n\nGeneral recommendation for " ++ mc ++ " (per acre):\n• Basal dose: DAP 50 kg + MOP 25 kg at sowing\n• Top dressing: Urea 25–30 kg at 30 days after planting\n• Micronutrients: Zinc sulphate if soil is deficient\n\nAlways get a **soil test done** (free at KVK or for ₹50 at district lab) before applying fertilizers — saves 20–30% fertilizer cost.\n\n📞 Contact your local agriculture extension officer for crop-specific doses.")
  | "water" =>
    "💧 **Irrigation for " ++ mc ++ ("**\n\n" ++ mc ++ " water requirement: " ++ waterRequirement mc ++ "\n\n💡 Drip/sprinkler irrigation saves 30–50% water vs flood irrigation.\nApply for Pradhan Mantri Krishi Sinchai Yojana (PMKSY) subsidy on drip systems.")
  | "loan" =>
    "🏦 **Farm Finance & Insurance**\n\n• **Kisan Credit Card (KCC):** Up to ₹3 lakh at 4% effective interest (7% minus 3% subvention) — apply at any bank\n• **PM-KISAN:** ₹6,000/year direct to your bank → pmkisan.gov.in\n• **PMFBY Crop Insurance:** Covers crop loss from drought, flood, pest — enroll before sowing\n• **NABARD loans** via cooperative banks for farm infrastructure\n\n📞 Bank helpline or nearest PACS for KCC application\n📞 Kisan Helpline: 1800-180-1551"
  | "export" =>
    "🌍 **Export Opportunities for " ++ mc ++ ("**\n\n" ++ ct ++ "\n\nKey export markets for Indian " ++ mc ++ ":\n" ++ exportMarkets mc ++ "\n\nRegister on APEDA (Agricultural and Processed Food Products Export Authority) at apeda.gov.in to connect with exporters.")
  | "sowing" =>
    "🌱 **Sowing Guide — " ++ mc ++ ("**\n\nSeason: " ++ cm.season ++ " | Best sowing time varies by region.\n\nGeneral steps:\n1. Soil preparation: Deep plowing + 2–3 harrowings\n2. Seed treatment: Use certified seeds, treat with fungicide\n3. Spacing & depth: As per variety recommendation\n4. Basal fertilizer: Apply DAP at sowing\n\n📞 Contact your Krishi Vigyan Kendra (KVK) for region-specific sowing schedule and variety recommendations for " ++ mc ++ ".")
  | "harvest" =>
    "🌾 **Harvest Time — " ++ mc ++ ("**\n\nTypical harvest window: **") ++ cm.harvest ++ ("**\nSeason: " ++ cm.season ++ "\n\nSigns of maturity for " ++ mc ++ ":\n" ++ maturitySigns mc ++ "\n\n⏰ Harvest at the right time to avoid quality loss and price drop.")
  | "variety" =>
    "🌱 **Best Varieties — " ++ mc ++ ("**\n\nTop recommended varieties for " ++ mc ++ ":\n" ++ varietyList mc ++ "\n\nAlways buy **certified seeds** from government-registered dealers.")
  | "transport" =>
    "🚛 **Transport & Logistics for " ++ mc ++ ("**\n\nTips to reduce transport costs:\n• Join or form an FPO to aggregate produce and share transport\n• Sell on eNAM (enam.gov.in) — buyers can bid from anywhere, reducing your need to travel\n• Harvest at the right time to avoid emergency transport\n• Use government-subsidized transport schemes in your state\n\nFor perishables like " ++ perishableName mc ++ ", pre-cool before transport to reduce losses.")
  | _ =>
    "🌾 **AgroVueAI — " ++ mc ++ (" Answer**\n\nYour question: \"" ++ msg ++ "\"\n\n" ++ ct ++ "\n\nRelevant info for " ++ mc ++ ":\n• Season: " ++ cm.season ++ " | Harvest: ") ++ cm.harvest ++ ("\n• Approx price: ₹" ++ toString cm.base ++ "/qtl\n\n📞 For expert advice specific to your question:\n• Kisan Call Centre: 1800-180-1551 (Toll Free, 24x7)\n• eNAM portal: enam.gov.in\n• Nearest Krishi Vigyan Kendra (KVK)")

/-- The names of the fifteen non-general intents, in declaration order. -/
def intentNames : List String := intentTable.map (fun e => e.1)

/-- The smart local fallback (App.js lines 168-290): normalize the
question, classify the intent, resolve the mentioned crop and its
metadata/tip, and render the matching template. -/
def getLocalFallback (msg crop : String) : String :=
  let q := normalize msg
  renderFallback (classify q) (mentionedCropOf q crop)
    (resolvedMeta q crop) (resolvedTip q crop) msg

/-- Outcome of the remote chat-completion call of `getAIReply`
(App.js lines 137-162).  The three error constructors are the cases
that end in the `catch` block: a rejected `fetch` (network failure), a
non-success HTTP status (`!response.ok` throws), and a thrown JSON
parse error.  `success content` is a parsed 2xx response body, whose
optional `content` field is a list of blocks with optional `text`
fields. -/
inductive RemoteOutcome where
  | netError
  | badStatus (status : Nat)
  | parseError
  | success (content : Option (List (Option String)))
deriving DecidableEq

/-- Models JavaScript `String.prototype.trim` (drop leading and
trailing whitespace), used on the remote reply text. -/
def strTrim (s : String) : String := String.mk (trimL (trimR s.data))

/-- The reply text extracted from a successful response:
`data.content?.map(b => b.text || "").join("") || ""`
(App.js line 156). -/
def replyText (content : Option (List (Option String))) : String :=
  match content with
  | none => ""
  | some blocks => String.join (blocks.map (fun b => b.getD ""))

/-- The advisor facade `getAIReply` (App.js lines 96-163), with the
remote call's outcome made explicit.  Every thrown error is caught and
answered by `getLocalFallback`; a successful call returns the trimmed
reply text, or the fixed apology string when the trimmed text is empty
(`text.trim() || "Sorry, ..."`).  The function is total: it never
raises, it always returns a display string. -/
def getAIReply (res : RemoteOutcome) (userMessage crop : String) : String :=
  match res with
  | .netError => getLocalFallback userMessage crop
  | .badStatus _ => getLocalFallback userMessage crop
  | .parseError => getLocalFallback userMessage crop
  | .success content =>
    let text := replyText content
    if strTrim text = "" then "Sorry, I could not get a response. Please try again."
    else strTrim text

/-- `strContains s t` holds when `t` occurs verbatim (contiguously)
inside `s`. -/
def strContains (s t : String) : Prop :=
  ∃ pre post, s.data = pre ++ t.data ++ post

end AgroVue


namespace AgroVue

/-! ### Basic string lemmas -/

theorem str_eq_empty_iff (s : String) : s = "" ↔ s.data = [] := by
  constructor
  · intro h; rw [h]
  · intro h; cases s; simp_all

theorem append_ne_empty_left {s : String} (t : String) (h : s ≠ "") : s ++ t ≠ "" := by
  intro hc
  rw [str_eq_empty_iff, String.data_append, List.append_eq_nil] at hc
  exact h ((str_eq_empty_iff s).2 hc.1)

theorem strContains_self (s : String) : strContains s s :=
  ⟨[], [], by simp⟩

theorem strContains_appL {s t : String} (u : String) (h : strContains s t) :
    strContains (u ++ s) t := by
  obtain ⟨pre, post, hp⟩ := h
  exact ⟨u.data ++ pre, post, by rw [String.data_append, hp]; simp⟩

theorem strContains_appR {s t : String} (u : String) (h : strContains s t) :
    strContains (s ++ u) t := by
  obtain ⟨pre, post, hp⟩ := h
  exact ⟨pre, post ++ u.data, by rw [String.data_append, hp]; simp⟩

/-! ### Correctness of the substring tester `listSub` -/

theorem listPre_iff (t : List Char) : ∀ q, listPre t q = true ↔ ∃ r, q = t ++ r := by
  induction t with
  | nil => intro q; simp [listPre]
  | cons a as ih =>
    intro q
    cases q with
    | nil => simp [listPre]
    | cons b bs =>
      simp only [listPre, Bool.and_eq_true, beq_iff_eq, ih, List.cons_append,
        List.cons.injEq]
      constructor
      · rintro ⟨rfl, r, rfl⟩; exact ⟨r, rfl, rfl⟩
      · rintro ⟨r, rfl, rfl⟩; exact ⟨rfl, r, rfl⟩

theorem listSub_iff (t : List Char) : ∀ q, listSub t q = true ↔ ∃ pre post, q = pre ++ t ++ post := by
  intro q
  induction q with
  | nil =>
    simp only [listSub, listPre_iff]
    constructor
    · rintro ⟨r, hr⟩
      rcases List.append_eq_nil.1 hr.symm with ⟨rfl, rfl⟩
      exact ⟨[], [], rfl⟩
    · rintro ⟨pre, post, hp⟩
      rcases List.append_eq_nil.1 (List.append_eq_nil.1 hp.symm).1 with ⟨rfl, rfl⟩
      rcases List.append_eq_nil.1 hp.symm with ⟨-, rfl⟩
      exact ⟨[], rfl⟩
  | cons c rest ih =>
    simp only [listSub, Bool.or_eq_true, listPre_iff, ih]
    constructor
    · rintro (⟨r, hr⟩ | ⟨pre, post, hp⟩)
      · exact ⟨[], r, by simpa using hr⟩
      · exact ⟨c :: pre, post, by simp [hp]⟩
    · rintro ⟨pre, post, hp⟩
      cases pre with
      | nil => exact Or.inl ⟨post, by simpa using hp⟩
      | cons c' pre' =>
        simp only [List.cons_append, List.cons.injEq] at hp
        exact Or.inr ⟨pre', post, hp.2⟩

theorem strContains_iff (s t : String) : strContains s t ↔ includes s t = true := by
  unfold strContains includes
  rw [listSub_iff]

/-! ### The templater never renders an empty answer -/

theorem renderFallback_ne_empty (intent mc : String) (cm : CropMeta) (ct msg : String) :
    renderFallback intent mc cm ct msg ≠ "" := by
  unfold renderFallback
  split <;> (repeat apply append_ne_empty_left) <;> decide

/-! ### The fold `topEntry` is the first entry attaining the maximum -/

theorem topEntry_cons (x e : String × Nat) (l : List (String × Nat)) :
    topEntry x (e :: l) = topEntry (if x.2 < e.2 then e else x) l := rfl

theorem le_maxOf {e : String × Nat} : ∀ {l}, e ∈ l → e.2 ≤ maxOfScores l := by
  intro l
  induction l with
  | nil => intro h; cases h
  | cons a t ih =>
    intro h
    rcases List.mem_cons.1 h with rfl | h
    · exact le_max_left _ _
    · exact le_trans (ih h) (le_max_right _ _)

theorem topEntry_mem (l : List (String × Nat)) : ∀ x, topEntry x l ∈ x :: l := by
  induction l with
  | nil => intro x; exact List.mem_singleton.2 rfl
  | cons e t ih =>
    intro x
    rw [topEntry_cons]
    rcases List.mem_cons.1 (ih (if x.2 < e.2 then e else x)) with h | h
    · rw [h]
      split
      · exact List.mem_cons_of_mem _ (List.mem_cons_self _ _)
      · exact List.mem_cons_self _ _
    · exact List.mem_cons_of_mem _ (List.mem_cons_of_mem _ h)

theorem topEntry_score (l : List (String × Nat)) :
    ∀ x, (topEntry x l).2 = max x.2 (maxOfScores l) := by
  induction l with
  | nil => intro x; simp [topEntry, maxOfScores]
  | cons e t ih =>
    intro x
    rw [topEntry_cons, ih, maxOfScores]
    split <;> rename_i h <;> omega

theorem topEntry_of_le (l : List (String × Nat)) :
    ∀ x, maxOfScores l ≤ x.2 → topEntry x l = x := by
  induction l with
  | nil => intro x _; rfl
  | cons e t ih =>
    intro x h
    rw [maxOfScores] at h
    rw [topEntry_cons]
    have he : ¬ x.2 < e.2 := by omega
    rw [if_neg he]
    exact ih x (by omega)

theorem find?_topEntry (l : List (String × Nat)) :
    ∀ x, (x :: l).find? (fun e => e.2 == max x.2 (maxOfScores l)) = some (topEntry x l) := by
  induction l with
  | nil =>
    intro x
    simp [List.find?, maxOfScores, topEntry]
  | cons e t ih =>
    intro x
    by_cases hlt : x.2 < e.2
    · have hM : max x.2 (maxOfScores (e :: t)) = max e.2 (maxOfScores t) := by
        rw [maxOfScores]; omega
      have hx : (x.2 == max e.2 (maxOfScores t)) = false := by
        simp only [beq_eq_false_iff_ne, ne_eq]
        omega
      rw [hM, topEntry_cons, if_pos hlt]
      simp only [List.find?_cons, hx]
      exact ih e
    · have hM : max x.2 (maxOfScores (e :: t)) = max x.2 (maxOfScores t) := by
        rw [maxOfScores]; omega
      rw [hM, topEntry_cons, if_neg hlt]
      by_cases hx : x.2 = max x.2 (maxOfScores t)
      · have hxt : (x.2 == max x.2 (maxOfScores t)) = true := beq_iff_eq.2 hx
        simp only [List.find?_cons, hxt]
        have hle : maxOfScores t ≤ x.2 := by omega
        rw [topEntry_of_le t x hle]
      · have hxb : (x.2 == max x.2 (maxOfScores t)) = false := by
          simp only [beq_eq_false_iff_ne, ne_eq]
          omega
        have heb : (e.2 == max x.2 (maxOfScores t)) = false := by
          simp only [beq_eq_false_iff_ne, ne_eq]
          omega
        have hrec := ih x
        simp only [List.find?_cons, hxb] at hrec
        simp only [List.find?_cons, heb, hxb]
        exact hrec

theorem maxOf_eq_zero {l : List (String × Nat)} :
    maxOfScores l = 0 ↔ ∀ e ∈ l, e.2 = 0 := by
  induction l with
  | nil => simp [maxOfScores]
  | cons e t ih =>
    rw [maxOfScores]
    simp only [List.mem_cons, Nat.max_eq_zero_iff, ih]
    constructor
    · rintro ⟨h1, h2⟩ a (rfl | ha)
      · exact h1
      · exact h2 a ha
    · intro h
      exact ⟨h e (Or.inl rfl), fun a ha => h a (Or.inr ha)⟩

/-! ### Score-table facts -/

theorem has_eq_countP (q : String) (ts : List String) :
    has q ts = ts.countP (fun t => includes q t) := by
  have aux : ∀ (ts : List String) (a : Nat),
      ts.foldl (fun score t => score + (if includes q t then 1 else 0)) a =
        a + ts.countP (fun t => includes q t) := by
    intro ts
    induction ts with
    | nil => intro a; simp [List.countP_nil]
    | cons t rest ih =>
      intro a
      rw [List.foldl_cons, ih, List.countP_cons]
      rcases Bool.eq_false_or_eq_true (includes q t) with hb | hb <;>
        (simp [hb]; try omega)
  rw [has, aux, Nat.zero_add]

theorem scoreTable_name_ne_general (q : String) :
    ∀ e ∈ scoreTable q, e.1 ≠ "general" := by
  intro e he
  simp only [scoreTable, List.mem_map] at he
  obtain ⟨a, ha, rfl⟩ := he
  change a.1 ≠ "general"
  simp only [intentTable, List.mem_cons, List.not_mem_nil, or_false] at ha
  rcases ha with rfl | rfl | rfl | rfl | rfl | rfl | rfl | rfl | rfl | rfl | rfl | rfl | rfl | rfl | rfl <;> decide

/-! ### Normalizer lemmas -/

theorem punct_toLower {c : Char} (h : isPunct c = true) : c.toLower = c := by
  simp only [isPunct, Bool.or_eq_true, decide_eq_true_eq] at h
  rcases h with ((rfl | rfl) | rfl) | rfl <;> decide

theorem trimR_congr (c : Char) {a b : List Char} (h : trimR a = trimR b) :
    trimR (c :: a) = trimR (c :: b) := by
  simp only [trimR]
  rw [h]

theorem trimR_collapse_ws : ∀ R : List Char,
    trimR (collapse (R ++ [' '])) = trimR (collapse R) := by
  intro R
  induction R using collapse.induct with
  | case1 => decide
  | case2 c hc =>
    have hsp : isWs ' ' = true := by decide
    simp [collapse, trimR, hc, hsp]
  | case3 c hc =>
    have hsp : isWs ' ' = true := by decide
    simp only [Bool.not_eq_true] at hc
    simp [collapse, trimR, hc, hsp]
  | case4 c d rest h ih =>
    simp only [List.cons_append, collapse, h, if_true]
    simpa [List.cons_append] using ih
  | case5 c d rest h ih =>
    have hb : (isWs c && isWs d) = false := by simpa using h
    simp only [List.cons_append, collapse, hb, Bool.false_eq_true, if_false]
    exact trimR_congr _ (by simpa [List.cons_append] using ih)

theorem normalize_eq_of_lower_eq {q r : String}
    (h : q.data.map Char.toLower = r.data.map Char.toLower) :
    normalize q = normalize r := by
  unfold normalize
  rw [h]

theorem normalize_append_punct (q : String) {c : Char} (h : isPunct c = true) :
    normalize (String.mk (q.data ++ [c])) = normalize q := by
  unfold normalize
  show String.mk (trimL (trimR (collapse
    (((q.data ++ [c]).map Char.toLower).map (fun x => if isPunct x then ' ' else x))))) = _
  rw [List.map_append, List.map_append]
  simp only [List.map_cons, List.map_nil, punct_toLower h, h, if_true]
  rw [trimR_collapse_ws]

/-! ### First-match decomposition of `List.find?` -/

theorem find?_decomp {p : String → Bool} :
    ∀ (l : List String) (a : String), l.find? p = some a →
      ∃ pre post, l = pre ++ a :: post ∧ p a = true ∧ ∀ x ∈ pre, p x = false := by
  intro l
  induction l with
  | nil => intro a h; simp [List.find?] at h
  | cons x t ih =>
    intro a h
    cases hpx : p x with
    | true =>
      simp only [List.find?_cons, hpx, Option.some.injEq] at h
      subst h
      exact ⟨[], t, rfl, hpx, by simp⟩
    | false =>
      simp only [List.find?_cons, hpx] at h
      obtain ⟨pre, post, rfl, hpa, hpre⟩ := ih a h
      refine ⟨x :: pre, post, rfl, hpa, ?_⟩
      intro y hy
      rcases List.mem_cons.1 hy with rfl | hy
      · exact hpx
      · exact hpre y hy

/-! ### Crop-name and harvest-window occurrences in the templates -/

theorem renderFallback_contains_mc {intent : String} (mc : String) (cm : CropMeta)
    (ct msg : String) (h : intent ≠ "loan") :
    strContains (renderFallback intent mc cm ct msg) mc := by
  unfold renderFallback
  split <;>
    first
      | exact strContains_appR _ (strContains_appL _ (strContains_self mc))
      | exact strContains_appR _ (strContains_appR _ (strContains_appR _
          (strContains_appL _ (strContains_self mc))))
      | exact absurd rfl h

theorem renderFallback_contains_harvest {intent : String} (mc : String) (cm : CropMeta)
    (ct msg : String)
    (h : intent = "price" ∨ intent = "sell" ∨ intent = "profit" ∨ intent = "harvest" ∨
      intent ∉ intentNames) :
    strContains (renderFallback intent mc cm ct msg) cm.harvest := by
  unfold renderFallback
  split <;>
    first
      | exact strContains_appR _ (strContains_appL _ (strContains_self cm.harvest))
      | exact absurd h (by decide)

/-! ### Claim theorems -/

/-- Claim C10: keyword matching is raw substring matching, so one word
can score several intents: the one-word question "kitna" matches the
price literal "kitna" and, inside that same word, the disease literal
"kit"; both intents score exactly 1, and the tie is resolved to
"price", the earlier intent in the enumeration order of the score
table. -/
theorem substring_scoring_cross_intent :
    "kitna" ∈ priceKw ∧ "kit" ∈ diseaseKw ∧
    includes "kitna" "kitna" = true ∧ includes "kitna" "kit" = true ∧
    ("price", 1) ∈ scoreTable "kitna" ∧ ("disease", 1) ∈ scoreTable "kitna" ∧
    classify (normalize "kitna") = "price" ∧ ("price" : String) ≠ "disease" := by
  decide

/-- Claim C8: `classify (normalize q)` is invariant under changing the
letter case of `q` (two strings with the same character-wise
lower-casing normalize identically) and under appending one of the
punctuation characters stripped by `normalize` (`?`, `।`, `!`, `,`). -/
theorem classify_normalize_invariant :
    (∀ q r : String, q.data.map Char.toLower = r.data.map Char.toLower →
      classify (normalize q) = classify (normalize r)) ∧
    (∀ (q : String) (c : Char), isPunct c = true →
      classify (normalize (String.mk (q.data ++ [c]))) = classify (normalize q)) := by
  constructor
  · intro q r h
    rw [normalize_eq_of_lower_eq h]
  · intro q c h
    rw [normalize_append_punct q h]

/-- Witness for C8: "Tomato Price?" and "tomato price" classify
identically (and to the price intent). -/
theorem classify_normalize_invariant_witness :
    classify (normalize (String.mk ("Tomato Price".data ++ ['?']))) =
      classify (normalize "tomato price") ∧
    classify (normalize "tomato price") = "price" := by
  constructor
  · exact (classify_normalize_invariant.2 "Tomato Price" '?' (by decide)).trans
      (classify_normalize_invariant.1 "Tomato Price" "tomato price" (by decide))
  · decide

/-- Claim C5: the advisor facade is total (it returns a display string
on every outcome, never raising): every thrown error of the remote
call — network failure, non-success HTTP status, JSON parse error —
is answered by the local fallback `getLocalFallback`, while a
successful call whose reply text is empty after trimming returns the
fixed apology string and a successful call with non-empty trimmed text
returns that text, not the fallback. -/
theorem getAIReply_spec (msg crop : String) (status : Nat)
    (content : Option (List (Option String))) :
    getAIReply .netError msg crop = getLocalFallback msg crop ∧
    getAIReply (.badStatus status) msg crop = getLocalFallback msg crop ∧
    getAIReply .parseError msg crop = getLocalFallback msg crop ∧
    (strTrim (replyText content) = "" →
      getAIReply (.success content) msg crop =
        "Sorry, I could not get a response. Please try again.") ∧
    (strTrim (replyText content) ≠ "" →
      getAIReply (.success content) msg crop = strTrim (replyText content)) := by
  refine ⟨rfl, rfl, rfl, ?_, ?_⟩
  · intro h
    simp [getAIReply, h]
  · intro h
    simp [getAIReply, h]

/-- Witness for C5: a blank-only reply yields the apology string, a
non-blank reply is returned trimmed. -/
theorem getAIReply_spec_witness :
    getAIReply (.success (some [some "  "])) "hello" "Wheat" =
      "Sorry, I could not get a response. Please try again." ∧
    getAIReply (.success (some [some " hi "])) "hello" "Wheat" = "hi" := by
  constructor
  · exact (getAIReply_spec "hello" "Wheat" 500 (some [some "  "])).2.2.2.1 (by decide)
  · exact (getAIReply_spec "hello" "Wheat" 500 (some [some " hi "])).2.2.2.2 (by decide)

/-- Claim C7: an intent score is presence voting: it equals the number
of the intent's keyword literals occurring as substrings of the
normalized question (each literal counted at most once regardless of
repeats), and it is bounded by the length of the keyword list. -/
theorem score_is_presence_count (q name : String) (kws : List String)
    (h : (name, kws) ∈ intentTable) :
    (name, kws.countP (fun t => includes q t)) ∈ scoreTable q ∧
    has q kws = kws.countP (fun t => includes q t) ∧
    has q kws ≤ kws.length := by
  have hc := has_eq_countP q kws
  refine ⟨?_, hc, ?_⟩
  · simp only [scoreTable, List.mem_map]
    exact ⟨(name, kws), h, by simp [hc]⟩
  · rw [hc]
    exact List.countP_le_length _

/-- Witness for C7 at the price intent and the question "aaj price":
two literals ("price", "aaj") occur, so the score is 2 ≤ 22. -/
theorem score_is_presence_count_witness :
    ("price", 2) ∈ scoreTable "aaj price" ∧ has "aaj price" priceKw ≤ priceKw.length := by
  have h := score_is_presence_count "aaj price" "price" priceKw (by decide)
  exact ⟨h.1, h.2.2⟩

/-- Claim C6: the crop-context resolver returns the caller-supplied
crop unchanged when no known crop name occurs (lower-cased) as a
substring of the question; otherwise it returns the first matching
crop in the enumeration order of `CROPS` (the decomposition exhibits
that every crop listed before the result does not match), overriding
the caller-supplied crop. -/
theorem resolveCrop_spec (q crop : String) :
    ((∀ c ∈ CROPS, includes q (lowerStr c) = false) → mentionedCropOf q crop = crop) ∧
    ((∃ c ∈ CROPS, includes q (lowerStr c) = true) →
      ∃ pre post, CROPS = pre ++ mentionedCropOf q crop :: post ∧
        includes q (lowerStr (mentionedCropOf q crop)) = true ∧
        ∀ c ∈ pre, includes q (lowerStr c) = false) := by
  constructor
  · intro hnone
    have hfind : CROPS.find? (fun c => includes q (lowerStr c)) = none :=
      List.find?_eq_none.2 (fun x hx => by simp [hnone x hx])
    simp [mentionedCropOf, hfind]
  · rintro ⟨c, hc, hinc⟩
    have hsome : (CROPS.find? (fun c => includes q (lowerStr c))).isSome :=
      List.find?_isSome.2 ⟨c, hc, hinc⟩
    obtain ⟨r, hr⟩ := Option.isSome_iff_exists.1 hsome
    obtain ⟨pre, post, hsplit, hpr, hpre⟩ := find?_decomp CROPS r hr
    have hmc : mentionedCropOf q crop = r := by simp [mentionedCropOf, hr]
    rw [hmc]
    exact ⟨pre, post, hsplit, hpr, hpre⟩

/-- Witness for C6: "hello there" names no crop, so the selection
"Potato" stays; "some rice and wheat bhav" names two crops and
resolves to "Wheat", the first in enumeration order (not "rice",
which appears earlier in the question). -/
theorem resolveCrop_spec_witness :
    mentionedCropOf "hello there" "Potato" = "Potato" ∧
    (∃ pre post, CROPS = pre ++ mentionedCropOf "some rice and wheat bhav" "Potato" :: post ∧
      includes "some rice and wheat bhav"
        (lowerStr (mentionedCropOf "some rice and wheat bhav" "Potato")) = true ∧
      ∀ c ∈ pre, includes "some rice and wheat bhav" (lowerStr c) = false) ∧
    mentionedCropOf "some rice and wheat bhav" "Potato" = "Wheat" := by
  refine ⟨(resolveCrop_spec "hello there" "Potato").1 (by decide), ?_, by decide⟩
  exact (resolveCrop_spec "some rice and wheat bhav" "Potato").2
    ⟨"Rice", by decide, by decide⟩

/-- Claim C9: metadata and tip lookups never fail: when the resolved
crop has no `CROP_META` entry the templater uses the generic default
record (base 2000, volatility 0.1 — stored as 10 hundredths — season
"varies", harvest "varies"), when it has no `CROP_TIPS` entry the
empty string is used, and `getLocalFallback` returns a (non-empty)
string on every question/crop input. -/
theorem lookup_defaults (q crop : String) :
    (cropMeta? (mentionedCropOf q crop) = none →
      resolvedMeta q crop =
        { season := "varies", harvest := "varies", base := 2000, vol := 10 }) ∧
    (cropTip? (mentionedCropOf q crop) = none → resolvedTip q crop = "") ∧
    (∀ msg, getLocalFallback msg crop ≠ "") := by
  refine ⟨?_, ?_, ?_⟩
  · intro hnone
    have hcropeq : mentionedCropOf q crop = crop := by
      cases hf : CROPS.find? (fun c => includes q (lowerStr c)) with
      | none => simp [mentionedCropOf, hf]
      | some r =>
        exfalso
        have hmc : mentionedCropOf q crop = r := by simp [mentionedCropOf, hf]
        have hrmem : r ∈ CROPS := List.mem_of_find?_eq_some hf
        have hall : ∀ c ∈ CROPS, (cropMeta? c).isSome = true := by decide
        have hisSome := hall r hrmem
        rw [hmc] at hnone
        rw [hnone] at hisSome
        simp at hisSome
    have hcrop_none : cropMeta? crop = none := hcropeq ▸ hnone
    unfold resolvedMeta
    rw [hnone, hcrop_none]
    rfl
  · intro hnone
    have hcropeq : mentionedCropOf q crop = crop := by
      cases hf : CROPS.find? (fun c => includes q (lowerStr c)) with
      | none => simp [mentionedCropOf, hf]
      | some r =>
        exfalso
        have hmc : mentionedCropOf q crop = r := by simp [mentionedCropOf, hf]
        have hrmem : r ∈ CROPS := List.mem_of_find?_eq_some hf
        have hall : ∀ c ∈ CROPS, (cropTip? c).isSome = true := by decide
        have hisSome := hall r hrmem
        rw [hmc] at hnone
        rw [hnone] at hisSome
        simp at hisSome
    have hcrop_none : cropTip? crop = none := hcropeq ▸ hnone
    unfold resolvedTip
    rw [hnone, hcrop_none]
    rfl
  · intro msg
    unfold getLocalFallback
    exact renderFallback_ne_empty _ _ _ _ _

/-- Witness for C9 at the unknown crop "Banana": the default record
and the empty tip are substituted, and the fallback still answers. -/
theorem lookup_defaults_witness :
    resolvedMeta "hello" "Banana" =
      { season := "varies", harvest := "varies", base := 2000, vol := 10 } ∧
    resolvedTip "hello" "Banana" = "" ∧
    getLocalFallback "hello" "Banana" ≠ "" := by
  refine ⟨(lookup_defaults "hello" "Banana").1 (by decide),
    (lookup_defaults "hello" "Banana").2.1 (by decide),
    (lookup_defaults "hello" "Banana").2.2 "hello"⟩

/-- Claim C3: `classify` answers "general" exactly when each of the
15 non-general intents scores zero; in particular a question in which
no keyword of any intent occurs classifies as "general". -/
theorem classify_general_iff :
    intentTable.length = 15 ∧
    (∀ q : String, classify q = "general" ↔ ∀ e ∈ scoreTable q, e.2 = 0) ∧
    (∀ q : String, (∀ e ∈ intentTable, ∀ t ∈ e.2, includes q t = false) →
      classify q = "general") := by
  have hiff : ∀ q : String, classify q = "general" ↔ ∀ e ∈ scoreTable q, e.2 = 0 := by
    intro q
    cases hrep : scoreTable q with
    | nil => simp [classify, hrep]
    | cons x rest =>
      have hsc := topEntry_score rest x
      constructor
      · intro hgen e he
        by_cases htop : 0 < (topEntry x rest).2
        · exfalso
          have hmem : topEntry x rest ∈ scoreTable q := by
            rw [hrep]; exact topEntry_mem rest x
          have hname := scoreTable_name_ne_general q _ hmem
          have hcl : classify q = (topEntry x rest).1 := by
            simp [classify, hrep, htop]
          exact hname (hcl.symm.trans hgen)
        · rcases List.mem_cons.1 he with rfl | hmem
          · omega
          · have := le_maxOf hmem
            omega
      · intro hzero
        have hx : x.2 = 0 := hzero x (List.mem_cons_self x rest)
        have hmax : maxOfScores rest = 0 :=
          maxOf_eq_zero.2 (fun e he => hzero e (List.mem_cons_of_mem _ he))
        have htop : ¬ 0 < (topEntry x rest).2 := by omega
        simp [classify, hrep, htop]
  refine ⟨rfl, hiff, ?_⟩
  intro q hkw
  rw [hiff]
  intro e he
  simp only [scoreTable, List.mem_map] at he
  obtain ⟨a, ha, rfl⟩ := he
  show has q a.2 = 0
  rw [has_eq_countP, List.countP_eq_zero]
  intro t ht
  simp [hkw a ha t ht]

/-- Witness for C3: "zzz qqq" matches no keyword of any intent and
classifies as "general". -/
theorem classify_general_iff_witness :
    classify "zzz qqq" = "general" :=
  classify_general_iff.2.2 "zzz qqq" (by decide)

/-- Claim C2: when a question matches keywords of two different
intents, `classify` selects an intent attaining the maximal score, and
that intent is exactly the first entry of the score table (in its
fixed declaration order) whose score equals the maximum — the
first-in-enumeration tie-break; being a pure function, the result is
identical across repeated calls with the same input. -/
theorem classify_argmax_first (q i j : String) (si sj : Nat)
    (hi : (i, si) ∈ scoreTable q) (_hj : (j, sj) ∈ scoreTable q) (_hij : i ≠ j)
    (hsi : 0 < si) (_hsj : 0 < sj) :
    (∃ s, (classify q, s) ∈ scoreTable q ∧ ∀ e ∈ scoreTable q, e.2 ≤ s) ∧
    ((scoreTable q).find? (fun e => e.2 == maxOfScores (scoreTable q))).map
      (fun e => e.1) = some (classify q) ∧
    classify q = classify q := by
  cases hrep : scoreTable q with
  | nil => rw [hrep] at hi; cases hi
  | cons x rest =>
    have hfind := find?_topEntry rest x
    have hsc := topEntry_score rest x
    have hi' : (i, si) ∈ x :: rest := by rw [← hrep]; exact hi
    have hle : si ≤ max x.2 (maxOfScores rest) := by
      rcases List.mem_cons.1 hi' with heq | hmem
      · have hx2 : si = x.2 := congrArg Prod.snd heq
        omega
      · have h2 := le_maxOf hmem
        simp only at h2
        omega
    have htop : 0 < (topEntry x rest).2 := by omega
    have hcl : classify q = (topEntry x rest).1 := by
      simp [classify, hrep, htop]
    refine ⟨⟨(topEntry x rest).2, ?_, ?_⟩, ?_, rfl⟩
    · rw [hcl]
      simpa using topEntry_mem rest x
    · intro e he
      rcases List.mem_cons.1 he with rfl | hmem
      · omega
      · have := le_maxOf hmem
        omega
    · show ((x :: rest).find? (fun e => e.2 == max x.2 (maxOfScores rest))).map
        (fun e => e.1) = some (classify q)
      rw [hfind, hcl]
      rfl

/-- Witness for C2: "price sell" scores 1 for both the price and the
sell intents; classification picks "price", the first intent of the
table attaining the maximum. -/
theorem classify_argmax_first_witness :
    (∃ s, (classify "price sell", s) ∈ scoreTable "price sell" ∧
      ∀ e ∈ scoreTable "price sell", e.2 ≤ s) ∧
    classify "price sell" = "price" := by
  have h := classify_argmax_first "price sell" "price" "sell" 1 1
    (by decide) (by decide) (by decide) (by decide) (by decide)
  exact ⟨h.1, by decide⟩

/-- Counterexample to claim C1 as stated: the loan template renders
neither the resolved crop's name nor its harvest window.  With intent
"loan", resolved crop "Wheat" and Wheat's metadata, the output
contains neither "Wheat" nor "Mar-Apr". -/
theorem renderFallback_loan_counterexample :
    ¬ (strContains (renderFallback "loan" "Wheat"
          { season := "Rabi", harvest := "Mar-Apr", base := 2200, vol := 6 }
          "Prices typically rise post-harvest export season (Apr–Jun). Best to store until May."
          "when will my loan arrive") "Wheat" ∧
       strContains (renderFallback "loan" "Wheat"
          { season := "Rabi", harvest := "Mar-Apr", base := 2200, vol := 6 }
          "Prices typically rise post-harvest export season (Apr–Jun). Best to store until May."
          "when will my loan arrive") "Mar-Apr") := by
  rintro ⟨h1, -⟩
  rw [strContains_iff] at h1
  exact absurd h1 (by decide)

/-- Claim C1 (amended): every template except the loan template
renders the resolved crop's name verbatim, and the price, sell,
profit, and harvest templates as well as the default (general)
template additionally render the resolved crop's harvest-window
string verbatim. -/
theorem renderFallback_contains (intent mc : String) (cm : CropMeta) (ct msg : String) :
    (intent ≠ "loan" → strContains (renderFallback intent mc cm ct msg) mc) ∧
    ((intent = "price" ∨ intent = "sell" ∨ intent = "profit" ∨ intent = "harvest" ∨
        intent ∉ intentNames) →
      strContains (renderFallback intent mc cm ct msg) cm.harvest) :=
  ⟨renderFallback_contains_mc mc cm ct msg, renderFallback_contains_harvest mc cm ct msg⟩

/-- Witness for C1's amended theorem: the price template for Wheat
contains both "Wheat" and "Mar-Apr". -/
theorem renderFallback_contains_witness :
    strContains (renderFallback "price" "Wheat"
      { season := "Rabi", harvest := "Mar-Apr", base := 2200, vol := 6 } "tip" "bhav")
      "Wheat" ∧
    strContains (renderFallback "price" "Wheat"
      { season := "Rabi", harvest := "Mar-Apr", base := 2200, vol := 6 } "tip" "bhav")
      "Mar-Apr" :=
  ⟨(renderFallback_contains "price" "Wheat"
      { season := "Rabi", harvest := "Mar-Apr", base := 2200, vol := 6 } "tip" "bhav").1
      (by decide),
   (renderFallback_contains "price" "Wheat"
      { season := "Rabi", harvest := "Mar-Apr", base := 2200, vol := 6 } "tip" "bhav").2
      (Or.inl rfl)⟩

/-- Counterexample to claim C4 as stated: the water template's
irrigation-requirement sub-branch distinguishes four named crops, not
five — over the whole crop table, exactly Wheat, Rice, Tomato and
Sugarcane receive a non-generic message. -/
theorem waterRequirement_four_counterexample :
    (CROPS.filter
        (fun c => waterRequirement c != "Moderate — check soil moisture before irrigating"))
      = ["Wheat", "Rice", "Tomato", "Sugarcane"] ∧
    (CROPS.filter
        (fun c => waterRequirement c != "Moderate — check soil moisture before irrigating")).length
      ≠ 5 := by
  decide

/-- Claim C4 (amended): the storage template's price-premium estimate
differs for exactly the two crops Potato and Onion versus all other
crops, and the water template's irrigation-requirement message
differs across exactly four named crops (Rice, Sugarcane, Wheat,
Tomato) versus a generic fallback message for all other crops. -/
theorem cropSubBranch_spec :
    (∀ c : String,
      storagePremium c = "25–40% price premium" ↔ (c = "Potato" ∨ c = "Onion")) ∧
    (∀ c : String, storagePremium c = "25–40% price premium" ∨
      storagePremium c = "short-term holding") ∧
    (∀ c : String,
      waterRequirement c ≠ "Moderate — check soil moisture before irrigating" ↔
        (c = "Rice" ∨ c = "Sugarcane" ∨ c = "Wheat" ∨ c = "Tomato")) ∧
    (waterRequirement "Rice" ≠ waterRequirement "Sugarcane" ∧
      waterRequirement "Rice" ≠ waterRequirement "Wheat" ∧
      waterRequirement "Rice" ≠ waterRequirement "Tomato" ∧
      waterRequirement "Sugarcane" ≠ waterRequirement "Wheat" ∧
      waterRequirement "Sugarcane" ≠ waterRequirement "Tomato" ∧
      waterRequirement "Wheat" ≠ waterRequirement "Tomato") := by
  refine ⟨?_, ?_, ?_, by decide⟩
  · intro c
    unfold storagePremium
    by_cases h1 : c = "Potato" <;> by_cases h2 : c = "Onion" <;> simp [h1, h2]
  · intro c
    unfold storagePremium
    by_cases h1 : c = "Potato" <;> by_cases h2 : c = "Onion" <;> simp [h1, h2]
  · intro c
    unfold waterRequirement
    by_cases h1 : c = "Rice" <;> by_cases h2 : c = "Sugarcane" <;>
      by_cases h3 : c = "Wheat" <;> by_cases h4 : c = "Tomato" <;>
      simp [h1, h2, h3, h4]

end AgroVue
